import Mathlib

/-!
Shallow embedding of the TheLuxuryShopper conversational shopping bot
(`src/main.go`, plus the two program variants in `src/unnamed/part_000`)
and proofs about its slot-filling engine, query builder, response
formatters and chat handler.

Conventions of the embedding:
* Go's `Session` is `map[string]interface{}` but each of the seven keys
  is only ever written with a single type (string or bool), so the
  session is embedded as a record of `Option` fields, one per key; a
  missing key is `none`.
* Writing a JSON response with `writeJSON` / `http.Error` is modelled by
  returning the message string; a turn returns the list of messages
  written during that turn, in order.
* `log.Fatal` (which kills the process) is modelled by returning `none`
  from an `Option`-valued function.
* `strings.EqualFold` is modelled by ASCII case folding (`eqFold`); all
  strings it is applied to in the source are ASCII.
* `strings.Replace(s, " ", "%20", -1)` is modelled by `replaceSpaces`,
  a single-character replace-all.
* `strconv.Atoi` with its error ignored (as `main.go` does) is
  `goAtoi` (0 on parse failure); with the error checked and fatal (as
  the `part_000` variant does) it is `goParseInt` (an `Option`).
-/

/-- ASCII case folding of one character, used to model `strings.EqualFold`
on the ASCII strings the source compares. -/
def foldChar (c : Char) : Char :=
  if 65 ≤ c.toNat && c.toNat ≤ 90 then Char.ofNat (c.toNat + 32) else c

/-- Model of Go `strings.EqualFold` for ASCII strings: equality after
case folding every character. -/
def eqFold (a b : String) : Bool :=
  a.data.map foldChar == b.data.map foldChar

/-- Replace every occurrence of character `c` by the string `rep`
(character-list level). -/
def replaceCharList (c : Char) (rep : List Char) : List Char → List Char
  | [] => []
  | a :: as => if a == c then rep ++ replaceCharList c rep as
               else a :: replaceCharList c rep as

/-- Model of `strings.Replace(s, " ", "%20", -1)` from the source's
keyword encoding. -/
def replaceSpaces (s : String) : String :=
  String.mk (replaceCharList ' ' "%20".data (s.data))

/-- Accumulate decimal digits; `none` as soon as a non-digit appears.
Helper for the `strconv.Atoi` model. -/
def readDigits (acc : Nat) : List Char → Option Nat
  | [] => some acc
  | c :: cs => if c.isDigit then readDigits (acc * 10 + (c.toNat - 48)) cs else none

/-- Model of Go `strconv.Atoi` as a partial function: optional sign, then
at least one decimal digit; `none` on any syntax error. -/
def goParseInt (s : String) : Option Int :=
  match s.data with
  | [] => none
  | '+' :: cs => if cs.isEmpty then none else (readDigits 0 cs).map Int.ofNat
  | '-' :: cs => if cs.isEmpty then none else (readDigits 0 cs).map (fun n => -(n : Int))
  | cs => (readDigits 0 cs).map Int.ofNat

/-- Model of `itemCount1, _ := strconv.Atoi(itemCount)` in `main.go`:
the error is ignored, so a failed parse yields Go's zero value `0`. -/
def goAtoi (s : String) : Int :=
  (goParseInt s).getD 0

/-- The Go `Session` map (`map[string]interface{}`). Each field is one of
the seven keys the program ever stores; `none` means the key is absent.
`conditionBool`, `minPriceBool`, `maxPriceBool` hold Go booleans, the
rest hold Go strings, exactly as in the source's writes. -/
structure Session where
  searchByKeyword : Option String := none
  conditionBool : Option Bool := none
  condition : Option String := none
  minPriceBool : Option Bool := none
  minPrice : Option String := none
  maxPriceBool : Option Bool := none
  maxPrice : Option String := none
  deriving DecidableEq, Repr

/-- The empty session created by `handleWelcome` (`sessions[uuid] = Session{}`)
and left behind by the terminal `for k := range session { delete(session, k) }`
loops. -/
def Session.empty : Session := {}

/-- The question text of `filterByCondition` in `main.go`. -/
def conditionQuestion : String :=
  "Please specify the condition of the required item. (New, Used or None)"

/-- The question text of `filterByMinPrice` in `main.go`. -/
def minPriceQuestion : String :=
  "Please specify the minimum price of the required item. (None in case you dont want to filter with minimum price)"

/-- The question text of `filterByMaxPrice` in `main.go`. -/
def maxPriceQuestion : String :=
  "Please specify the maximum price of the required item. (None in case you dont want to filter with maximum price)"

/-- The condition-answer normalization inside `filterByCondition`
(`main.go` lines 251-255): `new`/`used` case-insensitively become the
canonical `New`/`Used`; anything else is stored verbatim. -/
def normalizeCondition (message : String) : String :=
  if eqFold message "new" then "New"
  else if eqFold message "used" then "Used"
  else message

/-- `filterByCondition` from `main.go` (lines 233-259). Result is the
updated session and `some question` when the function returned `1`
after writing the question (ask branch), `none` when it returned `0`. -/
def filterByCondition (session : Session) (message : String) :
    Session × Option String :=
  let session :=
    if session.conditionBool.isNone then { session with conditionBool := some false }
    else session
  if session.condition.isNone then
    if !(session.conditionBool.getD false) then
      ({ session with conditionBool := some true }, some conditionQuestion)
    else
      ({ session with condition := some (normalizeCondition message) }, none)
  else
    (session, none)

/-- `filterByMinPrice` from `main.go` (lines 261-281). -/
def filterByMinPrice (session : Session) (message : String) :
    Session × Option String :=
  let session :=
    if session.minPriceBool.isNone then { session with minPriceBool := some false }
    else session
  if session.minPrice.isNone then
    if !(session.minPriceBool.getD false) then
      ({ session with minPriceBool := some true }, some minPriceQuestion)
    else
      ({ session with minPrice := some message }, none)
  else
    (session, none)

/-- `filterByMaxPrice` from `main.go` (lines 283-303). -/
def filterByMaxPrice (session : Session) (message : String) :
    Session × Option String :=
  let session :=
    if session.maxPriceBool.isNone then { session with maxPriceBool := some false }
    else session
  if session.maxPrice.isNone then
    if !(session.maxPriceBool.getD false) then
      ({ session with maxPriceBool := some true }, some maxPriceQuestion)
    else
      ({ session with maxPrice := some message }, none)
  else
    (session, none)

/-- The fixed query endpoint of `main.go` line 178, up to the page size. -/
def searchEndpoint : String :=
  "http://svcs.ebay.com/services/search/FindingService/v1?OPERATION-NAME=findItemsByKeywords&SERVICE-VERSION=1.0.0&SECURITY-APPNAME=TheLuxur-TheLuxur-PRD-45d705b3d-83824180&RESPONSE-DATA-FORMAT=JSON&REST-PAYLOAD&paginationInput.entriesPerPage="

/-- The Condition filter clause appended at `main.go` line 183,
parameterized by the threaded `filterIndex`. -/
def filterClauseCondition (condition : String) (filterIndex : Nat) : String :=
  "&itemFilter(" ++ toString filterIndex ++ ").name=Condition&itemFilter(" ++
    toString filterIndex ++ ").value=" ++ condition

/-- The MinPrice filter clause appended at `main.go` line 188. -/
def filterClauseMinPrice (minPrice : String) (filterIndex : Nat) : String :=
  "&itemFilter(" ++ toString filterIndex ++ ").name=MinPrice&itemFilter(" ++
    toString filterIndex ++ ").value=" ++ minPrice

/-- The MaxPrice filter clause appended at `main.go` line 193. -/
def filterClauseMaxPrice (maxPrice : String) (filterIndex : Nat) : String :=
  "&itemFilter(" ++ toString filterIndex ++ ").name=MaxPrice&itemFilter(" ++
    toString filterIndex ++ ").value=" ++ maxPrice

/-- The query URL built by `sampleProcessor` in `main.go` (lines 168-194)
from the filled session: keyword with spaces percent-encoded, page size 5,
then the Condition / MinPrice / MaxPrice clauses, each guarded by a
case-insensitive comparison with the sentinel `none`, with the shared
`filterIndex` counter incremented per appended clause (the MaxPrice
branch is last and does not increment). -/
def buildURL (s : Session) : String :=
  let condition := s.condition.getD ""
  let minPrice := s.minPrice.getD ""
  let maxPrice := s.maxPrice.getD ""
  let keyword := replaceSpaces (s.searchByKeyword.getD "")
  let numOfResults := toString 5
  let url := searchEndpoint ++ numOfResults ++ "&keywords=" ++ keyword
  let filterIndex := 0
  let step1 :=
    if !(eqFold condition "none") then
      (url ++ filterClauseCondition condition filterIndex, filterIndex + 1)
    else (url, filterIndex)
  let step2 :=
    if !(eqFold minPrice "none") then
      (step1.1 ++ filterClauseMinPrice minPrice step1.2, step1.2 + 1)
    else step1
  if !(eqFold maxPrice "none") then
    step2.1 ++ filterClauseMaxPrice maxPrice step2.2
  else step2.1

/-- Outcome of one `sampleProcessor` call up to the dispatch point: either
a slot question was written (and the call returned early), or all slots
were filled and the query URL was built and dispatched. -/
inductive ProcOut where
  | ask (question : String)
  | dispatch (url : String)
  deriving DecidableEq, Repr

/-- The slot-filling part of `sampleProcessor` in `main.go` (lines
147-194): bind the first utterance to `searchByKeyword` if absent, then
run the three filter helpers in order, returning early on the one that
asked a question; otherwise build the query URL for dispatch. -/
def sampleProcessor (session : Session) (message : String) : Session × ProcOut :=
  let session :=
    if session.searchByKeyword.isNone then { session with searchByKeyword := some message }
    else session
  match filterByCondition session message with
  | (session, some q) => (session, ProcOut.ask q)
  | (session, none) =>
    match filterByMinPrice session message with
    | (session, some q) => (session, ProcOut.ask q)
    | (session, none) =>
      match filterByMaxPrice session message with
      | (session, some q) => (session, ProcOut.ask q)
      | (session, none) => (session, ProcOut.dispatch (buildURL session))

/-- `true` exactly on the terminal (query-dispatching) outcome. -/
def ProcOut.isDispatch : ProcOut → Bool
  | ProcOut.ask _ => false
  | ProcOut.dispatch _ => true

/-- Fold `sampleProcessor` over a list of utterances, starting from a
given session: the session state after those turns. -/
def runSession (s : Session) (msgs : List String) : Session :=
  msgs.foldl (fun s m => (sampleProcessor s m).1) s

/-- The outcome of the turn that consumes `m` after the turns `msgs`. -/
def turnOut (s : Session) (msgs : List String) (m : String) : ProcOut :=
  (sampleProcessor (runSession s msgs) m).2

/-- The `Item` struct of `main.go` (one result row). All fields are the
strings extracted from the downstream payload. -/
structure Item where
  ID : String
  GalleryURL : String
  ItemURL : String
  Title : String
  Condition : String
  Price : String
  Currency : String
  deriving DecidableEq, Repr

/-- The parts of the downstream search payload the formatters read.
Each field is the value at the corresponding `simplejson` path
(`findItemsByKeywordsResponse[0]...`); `none` models a missing path or a
value of the wrong shape, on which `simplejson` reports an error (which
`main.go` ignores, yielding the zero value, and the `part_000` variant
treats as fatal). `items` already carries the per-row fields that
`generateResponse` extracts with type assertions from well-formed rows. -/
structure Payload where
  ack : Option String := none
  errorMessage : Option String := none
  count : Option String := none
  items : Option (List Item) := none
  itemSearchURL : Option String := none
  deriving Repr

/-- `handleError` from `main.go` (lines 305-318): on a case-insensitive
`failure` acknowledgement, write the embedded error message plus the
fixed suffix and delete every session key; otherwise do nothing. The
ignored `simplejson` errors make missing fields read as `""`. Returns
the updated session and the list of messages written. -/
def handleError (p : Payload) (session : Session) : Session × List String :=
  let error := p.ack.getD ""
  if eqFold error "failure" then
    let errorMessage := p.errorMessage.getD ""
    let response := errorMessage ++ "<br>  What else would you like to search for? "
    (Session.empty, [response])
  else
    (session, [])

/-- The fixed zero-results message of `main.go` line 324 (identical in
the `part_000` variant, line 661). -/
def zeroResultsMessage : String :=
  "There are no items matching your criteria. <br> What else would you like to search for? "

/-- `handleCaseZero` from `main.go` (lines 320-333): parse the `@count`
field with the `Atoi` error ignored (so a missing or malformed count
reads as `0`), and on `0` write the fixed message and clear the session. -/
def handleCaseZero (p : Payload) (session : Session) : Session × List String :=
  let itemCount := p.count.getD ""
  let itemCount1 := goAtoi itemCount
  if itemCount1 == 0 then
    (Session.empty, [zeroResultsMessage])
  else
    (session, [])

/-- One item block of the success response of `main.go` (lines 355-357);
`index` is the zero-based loop index. -/
def itemBlock (index : Nat) (element : Item) : String :=
  "<br> Item " ++ toString (index + 1) ++ " Title : " ++ element.Title ++
  "<br> Item " ++ toString (index + 1) ++ " Condition : " ++ element.Condition ++
  "<br> Item " ++ toString (index + 1) ++ " Price : " ++ element.Price ++ " " ++ element.Currency ++
  "<br> Item " ++ toString (index + 1) ++ " Gallery : <a href=\x27" ++ element.GalleryURL ++ "\x27>" ++ element.ItemURL ++ "</a>" ++
  "<br> Item " ++ toString (index + 1) ++ " URL : <a href=\x27" ++ element.ItemURL ++ "\x27>" ++ element.ItemURL ++ "</a><br>"

/-- `generateResponse` from `main.go` (lines 335-367): render the header
with the requested count string, one block per fetched item, and the
results-page link; write the response and clear the session. The ignored
`simplejson` errors make a missing item array read as empty and a missing
page URL as `""`. -/
def generateResponse (p : Payload) (session : Session) (numOfResults : String) :
    Session × List String :=
  let simplifiedData1 := p.items.getD []
  let pageURL := p.itemSearchURL.getD ""
  let response := "There are " ++ numOfResults ++ " items matching your criteria : "
  let response := (simplifiedData1.enum).foldl
    (fun r pr => r ++ itemBlock pr.1 pr.2) response
  let response := response ++ "<br> Results Page URL : <a href=\x27" ++ pageURL ++
    "\x27>" ++ pageURL ++ "</a> <br>  What else would you like to search for?"
  (Session.empty, [response])

/-- The dispatch tail of `sampleProcessor` in `main.go` (lines 220-228):
`handleError`, `handleCaseZero` and `generateResponse` are called in
sequence with no check of any return value, so every one of them runs on
every dispatch turn. Result: final session and all messages written, in
order. -/
def dispatchResponses (p : Payload) (session : Session) : Session × List String :=
  let r1 := handleError p session
  let r2 := handleCaseZero p r1.1
  let r3 := generateResponse p r2.1 (toString 5)
  (r3.1, r1.2 ++ r2.2 ++ r3.2)

/-- A whole chat turn of `main.go` after validation: run the slot-filling
engine; a question turn writes just the question, a dispatch turn fetches
`p` (the opaque downstream payload for the built query) and runs the three
formatters. -/
def processTurn (session : Session) (message : String) (p : Payload) :
    Session × List String :=
  match sampleProcessor session message with
  | (s, ProcOut.ask q) => (s, [q])
  | (s, ProcOut.dispatch _) => dispatchResponses p s

/-- `handleError` from the `part_000` variant (lines 625-649): here every
`simplejson` / `Atoi` error is checked and `log.Fatal`ed (modelled as
`none`), and the function returns `1` after writing (via `http.Error`)
and clearing, else `0`. Result: `none` for fatal, otherwise
`some (session, messages written, return value)`. -/
def handleErrorV2 (p : Payload) (session : Session) :
    Option (Session × List String × Nat) :=
  match p.ack with
  | none => none
  | some error =>
    if eqFold error "failure" then
      match p.errorMessage with
      | none => none
      | some errorMessage =>
        let response := errorMessage ++ "<br>  What else would you like to search for? "
        some (Session.empty, [response], 1)
    else
      some (session, [], 0)

/-- `handleCaseZero` from the `part_000` variant (lines 651-672): the
`@count` field must be present and numeric (else fatal); on `0` write the
fixed message, clear the session and return `1`. -/
def handleCaseZeroV2 (p : Payload) (session : Session) :
    Option (Session × List String × Nat) :=
  match p.count with
  | none => none
  | some itemCount =>
    match goParseInt itemCount with
    | none => none
    | some itemCount1 =>
      if itemCount1 == 0 then
        some (Session.empty, [zeroResultsMessage], 1)
      else
        some (session, [], 0)

/-- One item block of the `part_000` variant success response (lines
710-712). -/
def itemBlockV2 (index : Nat) (element : Item) : String :=
  "<br> Item " ++ toString (index + 1) ++ " Title : " ++ element.Title ++
  "<br> Item " ++ toString (index + 1) ++ " Condition : " ++ element.Condition ++
  "<br> Item " ++ toString (index + 1) ++ " Price : " ++ element.Price ++ " " ++ element.Currency ++
  "<br> Item " ++ toString (index + 1) ++ " Gallery : <img src=\x27" ++ element.GalleryURL ++ "\x27>" ++ "</img>" ++
  "<br> Item " ++ toString (index + 1) ++ " URL : <a href=\x27" ++ element.ItemURL ++
    "\x27target=\x27_blank\x27 style=\x27color:#c48843;\x27>" ++ element.ItemURL ++ "</a><br>"

/-- The success message body of the `part_000` variant `generateResponse`
(lines 708-714), given the (possibly adjusted) count string, the fetched
items and the results-page URL. -/
def successBodyV2 (numOfResults : String) (items : List Item) (pageURL : String) : String :=
  let response := "There are " ++ numOfResults ++ " items matching your criteria : <br>"
  let response := (items.enum).foldl (fun r pr => r ++ itemBlockV2 pr.1 pr.2) response
  response ++ "<br> Results Page URL : <a href=\x27" ++ pageURL ++
    "\x27target=\x27_blank\x27 style=\x27color:#c48843;\x27>" ++ pageURL ++
    "</a> <br><br> What else would you like to search for?"

/-- `generateResponse` from the `part_000` variant (lines 674-722): the
item array, page URL and `@count` must all be present (and the count
numeric), else fatal; if the actual fetched count is below 5 the reported
count string is replaced by the actual `@count` string; then render,
write, clear the session and return `1`. -/
def generateResponseV2 (p : Payload) (session : Session) (numOfResults : String) :
    Option (Session × List String × Nat) :=
  match p.items, p.itemSearchURL, p.count with
  | some simplifiedData1, some pageURL, some numOfFetchedResults =>
    match goParseInt numOfFetchedResults with
    | none => none
    | some numOfFetchedResults1 =>
      let numOfResults := if numOfFetchedResults1 < 5 then numOfFetchedResults else numOfResults
      some (Session.empty, [successBodyV2 numOfResults simplifiedData1 pageURL], 1)
  | _, _, _ => none
  
/-- The dispatch tail of the `part_000` variant `sampleProcessor` (lines
524-540): unlike `main.go`, every formatter's return value is checked and
`1` causes an early return, so at most one formatter responds. -/
def dispatchResponsesV2 (p : Payload) (session : Session) :
    Option (Session × List String) :=
  match handleErrorV2 p session with
  | none => none
  | some (session, r4, rv4) =>
    if rv4 == 1 then some (session, r4)
    else
      match handleCaseZeroV2 p session with
      | none => none
      | some (session, r5, rv5) =>
        if rv5 == 1 then some (session, r4 ++ r5)
        else
          match generateResponseV2 p session (toString 5) with
          | none => none
          | some (session, r6, _) => some (session, r4 ++ r5 ++ r6)

/-- The query URL built by the first `part_000` variant (lines 207-224):
same endpoint and clause texts, but page size 2 and the no-filter
sentinel `all` instead of `none` (and its MaxPrice branch does increment
the counter, which cannot affect the URL). -/
def buildURLV1 (s : Session) : String :=
  let condition := s.condition.getD ""
  let minPrice := s.minPrice.getD ""
  let maxPrice := s.maxPrice.getD ""
  let message1 := replaceSpaces (s.searchByKeyword.getD "")
  let numOfResults := toString 2
  let url := searchEndpoint ++ numOfResults ++ "&keywords=" ++ message1
  let filterIndex := 0
  let step1 :=
    if !(eqFold condition "all") then
      (url ++ filterClauseCondition condition filterIndex, filterIndex + 1)
    else (url, filterIndex)
  let step2 :=
    if !(eqFold minPrice "all") then
      (step1.1 ++ filterClauseMinPrice minPrice step1.2, step1.2 + 1)
    else step1
  if !(eqFold maxPrice "all") then
    step2.1 ++ filterClauseMaxPrice maxPrice step2.2
  else step2.1

/-- A JSON value, for the decoded chat request body
(`map[string]interface{}` after `json.Decode`). -/
inductive JValue where
  | str (s : String)
  | num (n : Int)
  | boolean (b : Bool)
  | null
  | arr (elems : List JValue)
  | obj (fields : List (String × JValue))

/-- The Go type assertion `.(string)` on an `interface{}` value: succeeds
exactly on strings; `none` models the panic branch. -/
def assertString : JValue → Option String
  | JValue.str s => some s
  | _ => none

/-- Association-list lookup for decoded JSON objects; models Go's
`data["message"]` presence test and read. -/
def lookupField : List (String × JValue) → String → Option JValue
  | [], _ => none
  | (k, v) :: rest, key => if k = key then some v else lookupField rest key

/-- The global `sessions` map (`map[string]Session`), as an association
list from UUID to session. -/
abbrev Store := List (String × Session)

/-- `sessions[uuid]` lookup. -/
def lookupStore : Store → String → Option Session
  | [], _ => none
  | (k, s) :: rest, uuid => if k = uuid then some s else lookupStore rest uuid

/-- Replace the session bound to `uuid` (Go mutates the map value in
place; the binding itself stays). -/
def updateStore : Store → String → Session → Store
  | [], _, _ => []
  | (k, s) :: rest, uuid, v =>
    if k = uuid then (k, v) :: rest else (k, s) :: updateStore rest uuid v

/-- An inbound `/chat` request as `handleChat` sees it: the HTTP method,
the `Authorization` header value (Go's `Header.Get` gives `""` when the
header is absent), and the decoded JSON body (`none` when `json.Decode`
fails). -/
structure ChatRequest where
  method : String
  auth : String
  body : Option (List (String × JValue))

/-- What a `/chat` request produced: an HTTP error status, a runtime
panic (from the unchecked `.(string)` assertion), or a processed turn
with the messages written. -/
inductive ChatResult where
  | httpError (status : Nat)
  | panicked
  | responded (messages : List String)
  deriving DecidableEq, Repr

/-- `handleChat` from `main.go` (lines 96-134) plus the processor call:
method check (405), empty `Authorization` (401), unknown session (401),
malformed JSON body (400), missing `message` key (400), then the
unchecked `data["message"].(string)` assertion (panic on non-strings),
and finally the processor. `p` is the downstream payload used if this
turn dispatches. Returns the updated store and the result. -/
def handleChatTurn (store : Store) (req : ChatRequest) (p : Payload) :
    Store × ChatResult :=
  if req.method ≠ "POST" then (store, ChatResult.httpError 405)
  else if req.auth = "" then (store, ChatResult.httpError 401)
  else
    match lookupStore store req.auth with
    | none => (store, ChatResult.httpError 401)
    | some session =>
      match req.body with
      | none => (store, ChatResult.httpError 400)
      | some data =>
        match lookupField data "message" with
        | none => (store, ChatResult.httpError 400)
        | some v =>
          match assertString v with
          | none => (store, ChatResult.panicked)
          | some message =>
            let r := processTurn session message p
            (updateStore store req.auth r.1, ChatResult.responded r.2)

/-- Substring test on character lists: does `pat` occur (contiguously)
in the list? -/
def leadsWith : List Char → List Char → Bool
  | [], _ => true
  | _ :: _, [] => false
  | a :: as, b :: bs => a == b && leadsWith as bs

/-- Does `pat` occur as a contiguous sublist? -/
def hasSubList (pat : List Char) : List Char → Bool
  | [] => leadsWith pat []
  | c :: rest => leadsWith pat (c :: rest) || hasSubList pat rest

/-- Does the string `pat` occur as a substring of `s`? Used to state the
claims about what the built query and the rendered responses contain. -/
def containsSub (s pat : String) : Bool :=
  hasSubList pat.data s.data

/-- Specification-side definition, following the spec's words: the
filters actually active for a `main.go` session (value not the
case-insensitive sentinel `none`), in the fixed order Condition,
MinPrice, MaxPrice; each entry is the filter name paired with the
clause-rendering function of the source. -/
def activeFilters (s : Session) : List (String × (Nat → String)) :=
  (if !(eqFold (s.condition.getD "") "none") then
    [("Condition", filterClauseCondition (s.condition.getD ""))] else []) ++
  (if !(eqFold (s.minPrice.getD "") "none") then
    [("MinPrice", filterClauseMinPrice (s.minPrice.getD ""))] else []) ++
  (if !(eqFold (s.maxPrice.getD "") "none") then
    [("MaxPrice", filterClauseMaxPrice (s.maxPrice.getD ""))] else [])

/-- Specification-side: same for the first `part_000` variant, whose
sentinel is `all`. -/
def activeFiltersV1 (s : Session) : List (String × (Nat → String)) :=
  (if !(eqFold (s.condition.getD "") "all") then
    [("Condition", filterClauseCondition (s.condition.getD ""))] else []) ++
  (if !(eqFold (s.minPrice.getD "") "all") then
    [("MinPrice", filterClauseMinPrice (s.minPrice.getD ""))] else []) ++
  (if !(eqFold (s.maxPrice.getD "") "all") then
    [("MaxPrice", filterClauseMaxPrice (s.maxPrice.getD ""))] else [])

/-- Specification-side definition, following the spec's words: append the
clauses of the given filters to `base`, each rendered at its zero-based
position in the list — "a zero-based index that increments only for
filters actually appended". -/
def appendIndexedFilters (base : String) (fs : List (String × (Nat → String))) : String :=
  (fs.enum).foldl (fun u pr => u ++ pr.2.2 pr.1) base

/-- The query URL of `main.go` before any filter clause. -/
def urlBase (s : Session) : String :=
  searchEndpoint ++ toString 5 ++ "&keywords=" ++ replaceSpaces (s.searchByKeyword.getD "")

/-- The query URL of the first `part_000` variant before any filter
clause (page size 2). -/
def urlBaseV1 (s : Session) : String :=
  searchEndpoint ++ toString 2 ++ "&keywords=" ++ replaceSpaces (s.searchByKeyword.getD "")

/-- Well-formedness of a payload for the `part_000` variant's checked
dispatch: everything the fired path reads must be present (else
`log.Fatal`). -/
def wfPayloadV2 (p : Payload) : Bool :=
  match p.ack with
  | none => false
  | some a =>
    if eqFold a "failure" then p.errorMessage.isSome
    else
      match p.count with
      | none => false
      | some c =>
        match goParseInt c with
        | none => false
        | some n => if n == 0 then true else p.items.isSome && p.itemSearchURL.isSome

/-- Specification-side definition, following the spec's words: the single
terminal response, by priority order — upstream failure first, then zero
results, then success (with the actual count reported when below 5). -/
def expectedTerminalV2 (p : Payload) : String :=
  if eqFold (p.ack.getD "") "failure" then
    (p.errorMessage.getD "") ++ "<br>  What else would you like to search for? "
  else if goAtoi (p.count.getD "") == 0 then
    zeroResultsMessage
  else
    successBodyV2
      (if goAtoi (p.count.getD "") < 5 then p.count.getD "" else toString 5)
      (p.items.getD []) (p.itemSearchURL.getD "")

/-! ## Theorems -/

/-- Step equation: the first turn on a fresh session binds the keyword,
asks the condition question and marks it asked. -/
theorem sampleProcessor_step1 (m : String) :
    sampleProcessor Session.empty m =
      (⟨some m, some true, none, none, none, none, none⟩, ProcOut.ask conditionQuestion) := rfl

/-- Step equation: the second turn consumes the condition answer
(normalized) and asks the min-price question. -/
theorem sampleProcessor_step2 (k m : String) :
    sampleProcessor ⟨some k, some true, none, none, none, none, none⟩ m =
      (⟨some k, some true, some (normalizeCondition m), some true, none, none, none⟩,
       ProcOut.ask minPriceQuestion) := rfl

/-- Step equation: the third turn consumes the min-price answer and asks
the max-price question. -/
theorem sampleProcessor_step3 (k c m : String) :
    sampleProcessor ⟨some k, some true, some c, some true, none, none, none⟩ m =
      (⟨some k, some true, some c, some true, some m, some true, none⟩,
       ProcOut.ask maxPriceQuestion) := rfl

/-- Step equation: the fourth turn consumes the max-price answer and
dispatches the built query. -/
theorem sampleProcessor_step4 (k c mn m : String) :
    sampleProcessor ⟨some k, some true, some c, some true, some mn, some true, none⟩ m =
      (⟨some k, some true, some c, some true, some mn, some true, some m⟩,
       ProcOut.dispatch (buildURL ⟨some k, some true, some c, some true, some mn, some true, some m⟩)) := rfl

/-- Claim C1 (confirmed): for every sequence of utterances on a fresh
session, the engine asks the condition, min-price and max-price questions
in that fixed order, each exactly once before dispatch, regardless of the
answers; each slot's Bool marker becomes `some true` exactly on the turn
its question is emitted (and stays `true`), and the slot value is still
absent on that turn and is written only from the subsequent turn's
utterance. The session after each of the four turns is given in full. -/
theorem C1_fixed_order_ask_once (m1 m2 m3 m4 : String) :
    turnOut Session.empty [] m1 = ProcOut.ask conditionQuestion ∧
    runSession Session.empty [m1] =
      ⟨some m1, some true, none, none, none, none, none⟩ ∧
    turnOut Session.empty [m1] m2 = ProcOut.ask minPriceQuestion ∧
    runSession Session.empty [m1, m2] =
      ⟨some m1, some true, some (normalizeCondition m2), some true, none, none, none⟩ ∧
    turnOut Session.empty [m1, m2] m3 = ProcOut.ask maxPriceQuestion ∧
    runSession Session.empty [m1, m2, m3] =
      ⟨some m1, some true, some (normalizeCondition m2), some true, some m3, some true, none⟩ ∧
    (∃ u, turnOut Session.empty [m1, m2, m3] m4 = ProcOut.dispatch u) ∧
    runSession Session.empty [m1, m2, m3, m4] =
      ⟨some m1, some true, some (normalizeCondition m2), some true, some m3, some true, some m4⟩ := by
  refine ⟨?_, ?_, ?_, ?_, ?_, ?_, ?_, ?_⟩
  case _ => simp [turnOut, runSession, sampleProcessor_step1]
  case _ => simp [runSession, sampleProcessor_step1]
  case _ => simp [turnOut, runSession, sampleProcessor_step1, sampleProcessor_step2]
  case _ => simp [runSession, sampleProcessor_step1, sampleProcessor_step2]
  case _ => simp [turnOut, runSession, sampleProcessor_step1, sampleProcessor_step2,
      sampleProcessor_step3]
  case _ => simp [runSession, sampleProcessor_step1, sampleProcessor_step2, sampleProcessor_step3]
  case _ =>
    refine ⟨buildURL ⟨some m1, some true, some (normalizeCondition m2), some true,
      some m3, some true, some m4⟩, ?_⟩
    simp [turnOut, runSession, sampleProcessor_step1, sampleProcessor_step2,
      sampleProcessor_step3, sampleProcessor_step4]
  case _ => simp [runSession, sampleProcessor_step1, sampleProcessor_step2,
      sampleProcessor_step3, sampleProcessor_step4]

/-- `filterByCondition` never touches the keyword slot. -/
theorem filterByCondition_keyword (s : Session) (m : String) :
    ((filterByCondition s m).1).searchByKeyword = s.searchByKeyword := by
  obtain ⟨kw, cb, c, mb, mn, xb, mx⟩ := s
  rcases cb with _ | b <;> rcases c with _ | cv <;> first | rfl | (cases b <;> rfl)

/-- `filterByMinPrice` never touches the keyword slot. -/
theorem filterByMinPrice_keyword (s : Session) (m : String) :
    ((filterByMinPrice s m).1).searchByKeyword = s.searchByKeyword := by
  obtain ⟨kw, cb, c, mb, mn, xb, mx⟩ := s
  rcases mb with _ | b <;> rcases mn with _ | v <;> first | rfl | (cases b <;> rfl)

/-- `filterByMaxPrice` never touches the keyword slot. -/
theorem filterByMaxPrice_keyword (s : Session) (m : String) :
    ((filterByMaxPrice s m).1).searchByKeyword = s.searchByKeyword := by
  obtain ⟨kw, cb, c, mb, mn, xb, mx⟩ := s
  rcases xb with _ | b <;> rcases mx with _ | v <;> first | rfl | (cases b <;> rfl)

/-- A set keyword survives any `sampleProcessor` turn: the only write is
guarded by the key being absent, and no helper touches the slot. -/
theorem sampleProcessor_keyword (s : Session) (m k : String)
    (h : s.searchByKeyword = some k) :
    ((sampleProcessor s m).1).searchByKeyword = some k := by
  unfold sampleProcessor
  simp only [h, Option.isNone_some, Bool.false_eq_true, if_false]
  rcases hfc : filterByCondition s m with ⟨s1, q1⟩
  have hk1 : s1.searchByKeyword = some k := by
    have := filterByCondition_keyword s m
    rw [hfc] at this
    rw [this, h]
  rcases q1 with _ | q
  · rcases hfm : filterByMinPrice s1 m with ⟨s2, q2⟩
    have hk2 : s2.searchByKeyword = some k := by
      have := filterByMinPrice_keyword s1 m
      rw [hfm] at this
      rw [this, hk1]
    rcases q2 with _ | q
    · rcases hfx : filterByMaxPrice s2 m with ⟨s3, q3⟩
      have hk3 : s3.searchByKeyword = some k := by
        have := filterByMaxPrice_keyword s2 m
        rw [hfx] at this
        rw [this, hk2]
      rcases q3 with _ | q <;> simp [hfm, hfx, hk3]
    · simp [hfm, hk2]
  · simp [hk1]

/-- Claim C2 (confirmed): on a fresh session the first utterance is bound
verbatim to `searchByKeyword` while every answer slot stays absent and
the turn's output is the condition question (so the utterance is not
interpreted as any answer); and once `searchByKeyword` holds a value, no
later turn overwrites it. -/
theorem C2_keyword_bound_verbatim :
    (∀ m1 : String,
      sampleProcessor Session.empty m1 =
        (⟨some m1, some true, none, none, none, none, none⟩, ProcOut.ask conditionQuestion)) ∧
    (∀ (s : Session) (m k : String), s.searchByKeyword = some k →
      ((sampleProcessor s m).1).searchByKeyword = some k) :=
  ⟨fun m1 => sampleProcessor_step1 m1, fun s m k h => sampleProcessor_keyword s m k h⟩

/-- Witness for C2 at concrete inputs. -/
theorem C2_keyword_witness :
    sampleProcessor Session.empty "Gucci Tshirt" =
      (⟨some "Gucci Tshirt", some true, none, none, none, none, none⟩,
       ProcOut.ask conditionQuestion) ∧
    ((sampleProcessor ⟨some "Gucci Tshirt", some true, none, none, none, none, none⟩
        "new").1).searchByKeyword = some "Gucci Tshirt" :=
  ⟨C2_keyword_bound_verbatim.1 "Gucci Tshirt",
   C2_keyword_bound_verbatim.2
     ⟨some "Gucci Tshirt", some true, none, none, none, none, none⟩ "new" "Gucci Tshirt" rfl⟩

/-- The `main.go` dispatch tail always ends with an empty session:
`generateResponse` runs last unconditionally and clears it. -/
theorem dispatchResponses_clears (p : Payload) (s : Session) :
    (dispatchResponses p s).1 = Session.empty := rfl

/-- Updating the session bound to a present key leaves the key present
with the new value. -/
theorem lookupStore_update (st : Store) (u : String) (s v : Session)
    (h : lookupStore st u = some s) :
    lookupStore (updateStore st u v) u = some v := by
  induction st with
  | nil => simp [lookupStore] at h
  | cons kv rest ih =>
    obtain ⟨k, s0⟩ := kv
    by_cases hk : k = u
    · simp [lookupStore, updateStore, hk]
    · simp only [lookupStore, updateStore, hk, if_false, if_neg hk] at h ⊢
      exact ih h

/-- Claim C3 (confirmed): after a terminal (dispatching) chat turn, for
any downstream payload, the session bound to the caller's identifier in
the store is the empty session — all slot keys removed, the identifier
itself still valid — so the same identifier can start a new conversation
without a new welcome. -/
theorem C3_terminal_clears_session (store : Store) (uuid m : String) (s : Session)
    (p : Payload) (b : List (String × JValue))
    (hne : uuid ≠ "")
    (hfound : lookupStore store uuid = some s)
    (hmsg : lookupField b "message" = some (JValue.str m))
    (hterm : (sampleProcessor s m).2.isDispatch = true) :
    lookupStore (handleChatTurn store ⟨"POST", uuid, some b⟩ p).1 uuid =
      some Session.empty := by
  unfold handleChatTurn
  simp only [hfound, hmsg, hne, assertString]
  rcases hsp : sampleProcessor s m with ⟨s2, o⟩
  rcases o with q | u
  · rw [hsp] at hterm
    simp [ProcOut.isDispatch] at hterm
  · simp only [processTurn, hsp, dispatchResponses_clears]
    simp
    exact lookupStore_update store uuid s Session.empty hfound

/-- Witness for C3: a concrete session one answer away from dispatch. -/
theorem C3_terminal_witness :
    lookupStore
      (handleChatTurn
        [("u1", ⟨some "Gucci Tshirt", some true, some "New", some true, some "none", some true, none⟩)]
        ⟨"POST", "u1", some [("message", JValue.str "100")]⟩ ({} : Payload)).1 "u1" =
      some Session.empty :=
  C3_terminal_clears_session
    [("u1", ⟨some "Gucci Tshirt", some true, some "New", some true, some "none", some true, none⟩)]
    "u1" "100"
    ⟨some "Gucci Tshirt", some true, some "New", some true, some "none", some true, none⟩
    {} [("message", JValue.str "100")] (by decide) rfl rfl rfl

/-- Refinement: the `main.go` query URL equals the base URL followed by
the active filters (sentinel `none`), each clause rendered at its
zero-based position in the append order. -/
theorem buildURL_renders (s : Session) :
    buildURL s = appendIndexedFilters (urlBase s) (activeFilters s) := by
  by_cases h1 : eqFold (s.condition.getD "") "none" <;>
  by_cases h2 : eqFold (s.minPrice.getD "") "none" <;>
  by_cases h3 : eqFold (s.maxPrice.getD "") "none" <;>
  simp [buildURL, urlBase, activeFilters, appendIndexedFilters, h1, h2, h3, List.enum,
    List.enumFrom, List.foldl_cons, List.foldl_nil]

/-- Refinement: the same for the first `part_000` variant (sentinel
`all`, page size 2). -/
theorem buildURLV1_renders (s : Session) :
    buildURLV1 s = appendIndexedFilters (urlBaseV1 s) (activeFiltersV1 s) := by
  by_cases h1 : eqFold (s.condition.getD "") "all" <;>
  by_cases h2 : eqFold (s.minPrice.getD "") "all" <;>
  by_cases h3 : eqFold (s.maxPrice.getD "") "all" <;>
  simp [buildURLV1, urlBaseV1, activeFiltersV1, appendIndexedFilters, h1, h2, h3, List.enum,
    List.enumFrom, List.foldl_cons, List.foldl_nil]

/-- Claim C4 (confirmed): the itemFilter indices in the built query start
at 0 and increment only for filters actually appended, with no gaps —
the URL equals the base plus the active clauses each rendered at its
list position; in particular, when only MinPrice and MaxPrice are active
their clauses carry indices 0 and 1. -/
theorem C4_gapless_filter_indices (s : Session) :
    buildURL s = appendIndexedFilters (urlBase s) (activeFilters s) ∧
    (eqFold (s.condition.getD "") "none" = true →
     eqFold (s.minPrice.getD "") "none" = false →
     eqFold (s.maxPrice.getD "") "none" = false →
     buildURL s = urlBase s ++ filterClauseMinPrice (s.minPrice.getD "") 0 ++
       filterClauseMaxPrice (s.maxPrice.getD "") 1) := by
  constructor
  · exact buildURL_renders s
  · intro h1 h2 h3
    simp [buildURL, urlBase, h1, h2, h3]

/-- Witness for C4: condition suppressed, min and max active, indices 0
and 1. -/
theorem C4_indices_witness :
    buildURL ⟨some "Gucci Tshirt", some true, some "none", some true, some "10", some true, some "90"⟩ =
      urlBase ⟨some "Gucci Tshirt", some true, some "none", some true, some "10", some true, some "90"⟩ ++
        filterClauseMinPrice "10" 0 ++ filterClauseMaxPrice "90" 1 :=
  (C4_gapless_filter_indices
    ⟨some "Gucci Tshirt", some true, some "none", some true, some "10", some true, some "90"⟩).2
    (by decide) (by decide) (by decide)

set_option maxRecDepth 10000 in
/-- Claim C5 (confirmed): for keyword `Gucci Tshirt` and answers `new`,
`none`, `100`, the fourth turn dispatches exactly the expected URL, which
contains the encoded keyword, a Condition filter `New` at index 0, a
MaxPrice filter `100` at index 1, and no MinPrice filter. -/
theorem C5_gucci_query :
    turnOut Session.empty ["Gucci Tshirt", "new", "none"] "100" =
      ProcOut.dispatch
        "http://svcs.ebay.com/services/search/FindingService/v1?OPERATION-NAME=findItemsByKeywords&SERVICE-VERSION=1.0.0&SECURITY-APPNAME=TheLuxur-TheLuxur-PRD-45d705b3d-83824180&RESPONSE-DATA-FORMAT=JSON&REST-PAYLOAD&paginationInput.entriesPerPage=5&keywords=Gucci%20Tshirt&itemFilter(0).name=Condition&itemFilter(0).value=New&itemFilter(1).name=MaxPrice&itemFilter(1).value=100" ∧
    containsSub
      "http://svcs.ebay.com/services/search/FindingService/v1?OPERATION-NAME=findItemsByKeywords&SERVICE-VERSION=1.0.0&SECURITY-APPNAME=TheLuxur-TheLuxur-PRD-45d705b3d-83824180&RESPONSE-DATA-FORMAT=JSON&REST-PAYLOAD&paginationInput.entriesPerPage=5&keywords=Gucci%20Tshirt&itemFilter(0).name=Condition&itemFilter(0).value=New&itemFilter(1).name=MaxPrice&itemFilter(1).value=100"
      "&keywords=Gucci%20Tshirt" = true ∧
    containsSub
      "http://svcs.ebay.com/services/search/FindingService/v1?OPERATION-NAME=findItemsByKeywords&SERVICE-VERSION=1.0.0&SECURITY-APPNAME=TheLuxur-TheLuxur-PRD-45d705b3d-83824180&RESPONSE-DATA-FORMAT=JSON&REST-PAYLOAD&paginationInput.entriesPerPage=5&keywords=Gucci%20Tshirt&itemFilter(0).name=Condition&itemFilter(0).value=New&itemFilter(1).name=MaxPrice&itemFilter(1).value=100"
      "itemFilter(0).name=Condition&itemFilter(0).value=New" = true ∧
    containsSub
      "http://svcs.ebay.com/services/search/FindingService/v1?OPERATION-NAME=findItemsByKeywords&SERVICE-VERSION=1.0.0&SECURITY-APPNAME=TheLuxur-TheLuxur-PRD-45d705b3d-83824180&RESPONSE-DATA-FORMAT=JSON&REST-PAYLOAD&paginationInput.entriesPerPage=5&keywords=Gucci%20Tshirt&itemFilter(0).name=Condition&itemFilter(0).value=New&itemFilter(1).name=MaxPrice&itemFilter(1).value=100"
      "itemFilter(1).name=MaxPrice&itemFilter(1).value=100" = true ∧
    containsSub
      "http://svcs.ebay.com/services/search/FindingService/v1?OPERATION-NAME=findItemsByKeywords&SERVICE-VERSION=1.0.0&SECURITY-APPNAME=TheLuxur-TheLuxur-PRD-45d705b3d-83824180&RESPONSE-DATA-FORMAT=JSON&REST-PAYLOAD&paginationInput.entriesPerPage=5&keywords=Gucci%20Tshirt&itemFilter(0).name=Condition&itemFilter(0).value=New&itemFilter(1).name=MaxPrice&itemFilter(1).value=100"
      "MinPrice" = false := by
  refine ⟨by decide, by decide, by decide, by decide, by decide⟩

/-- Claim C6 (confirmed): a slot's filter clause is in the active list
(and hence, by the rendering equation, in the built query) if and only if
its value is not, case-insensitively, the variant's reserved sentinel —
`none` in `main.go`, `all` in the first `part_000` variant; `None`,
`none`, `NONE` (and `All`, `ALL`) all match their sentinel. -/
theorem C6_sentinel_case_insensitive (s : Session) :
    (((activeFilters s).map Prod.fst).contains "Condition"
        = !(eqFold (s.condition.getD "") "none") ∧
     ((activeFilters s).map Prod.fst).contains "MinPrice"
        = !(eqFold (s.minPrice.getD "") "none") ∧
     ((activeFilters s).map Prod.fst).contains "MaxPrice"
        = !(eqFold (s.maxPrice.getD "") "none")) ∧
    buildURL s = appendIndexedFilters (urlBase s) (activeFilters s) ∧
    (((activeFiltersV1 s).map Prod.fst).contains "Condition"
        = !(eqFold (s.condition.getD "") "all") ∧
     ((activeFiltersV1 s).map Prod.fst).contains "MinPrice"
        = !(eqFold (s.minPrice.getD "") "all") ∧
     ((activeFiltersV1 s).map Prod.fst).contains "MaxPrice"
        = !(eqFold (s.maxPrice.getD "") "all")) ∧
    buildURLV1 s = appendIndexedFilters (urlBaseV1 s) (activeFiltersV1 s) ∧
    (eqFold "None" "none" = true ∧ eqFold "none" "none" = true ∧
     eqFold "NONE" "none" = true ∧ eqFold "All" "all" = true ∧
     eqFold "ALL" "all" = true) := by
  refine ⟨⟨?_, ?_, ?_⟩, buildURL_renders s, ⟨?_, ?_, ?_⟩, buildURLV1_renders s, by decide⟩ <;>
  · by_cases h1 : eqFold (s.condition.getD "") "none" <;>
    by_cases h2 : eqFold (s.minPrice.getD "") "none" <;>
    by_cases h3 : eqFold (s.maxPrice.getD "") "none" <;>
    by_cases g1 : eqFold (s.condition.getD "") "all" <;>
    by_cases g2 : eqFold (s.minPrice.getD "") "all" <;>
    by_cases g3 : eqFold (s.maxPrice.getD "") "all" <;>
    simp [activeFilters, activeFiltersV1, h1, h2, h3, g1, g2, g3]

/-- Folding `main.go` item blocks onto an initial string only appends to
it. -/
theorem foldl_itemBlock_split (l : List (Nat × Item)) (z : String) :
    ∃ r, l.foldl (fun u pr => u ++ itemBlock pr.1 pr.2) z = z ++ r := by
  induction l generalizing z with
  | nil => exact ⟨"", (String.append_empty z).symm⟩
  | cons a t ih =>
    obtain ⟨r, hr⟩ := ih (z ++ itemBlock a.1 a.2)
    exact ⟨itemBlock a.1 a.2 ++ r, by rw [List.foldl_cons, hr, String.append_assoc]⟩

/-- Folding `part_000` variant item blocks onto an initial string only
appends to it. -/
theorem foldl_itemBlockV2_split (l : List (Nat × Item)) (z : String) :
    ∃ r, l.foldl (fun u pr => u ++ itemBlockV2 pr.1 pr.2) z = z ++ r := by
  induction l generalizing z with
  | nil => exact ⟨"", (String.append_empty z).symm⟩
  | cons a t ih =>
    obtain ⟨r, hr⟩ := ih (z ++ itemBlockV2 a.1 a.2)
    exact ⟨itemBlockV2 a.1 a.2 ++ r, by rw [List.foldl_cons, hr, String.append_assoc]⟩

/-- The `part_000` variant success body starts with its count header. -/
theorem successBodyV2_split (c : String) (xs : List Item) (url : String) :
    ∃ rest, successBodyV2 c xs url =
      "There are " ++ c ++ " items matching your criteria : <br>" ++ rest := by
  unfold successBodyV2
  dsimp only
  obtain ⟨r, hr⟩ := foldl_itemBlockV2_split xs.enum
    ("There are " ++ c ++ " items matching your criteria : <br>")
  rw [hr]
  exact ⟨r ++ ("<br> Results Page URL : <a href=\x27" ++ url ++
    "\x27target=\x27_blank\x27 style=\x27color:#c48843;\x27>" ++ url ++
    "</a> <br><br> What else would you like to search for?"), by
      simp [String.append_assoc]⟩

/-- The `main.go` success formatter always opens with the requested count
(here 5), whatever the payload holds. -/
theorem generateResponse_always_requested_count (q : Payload) (t : Session) :
    ∃ rest, (generateResponse q t (toString 5)).2 =
      ["There are " ++ toString 5 ++ " items matching your criteria : " ++ rest] := by
  unfold generateResponse
  dsimp only
  obtain ⟨r, hr⟩ := foldl_itemBlock_split (q.items.getD []).enum
    ("There are " ++ toString 5 ++ " items matching your criteria : ")
  rw [hr]
  exact ⟨r ++ ("<br> Results Page URL : <a href=\x27" ++ q.itemSearchURL.getD "" ++
    "\x27>" ++ q.itemSearchURL.getD "" ++ "</a> <br>  What else would you like to search for?"), by
      simp [String.append_assoc]⟩

set_option maxRecDepth 10000 in
/-- Counterexample to claim C7 as stated: in `main.go`, a successful
payload with 2 items and count field `"2"` is rendered with the requested
count — the response says `There are 5 items` and nowhere says
`There are 2 items`. -/
theorem C7_requested_count_counterexample :
    containsSub
      (((generateResponse
        ⟨some "Success", none, some "2",
         some [⟨"1", "g1", "u1", "Bag", "New", "10", "USD"⟩,
               ⟨"2", "g2", "u2", "Belt", "Used", "20", "USD"⟩],
         some "http://results.page"⟩
        Session.empty (toString 5)).2).headD "")
      "There are 5 items" = true ∧
    containsSub
      (((generateResponse
        ⟨some "Success", none, some "2",
         some [⟨"1", "g1", "u1", "Bag", "New", "10", "USD"⟩,
               ⟨"2", "g2", "u2", "Belt", "Used", "20", "USD"⟩],
         some "http://results.page"⟩
        Session.empty (toString 5)).2).headD "")
      "There are 2 items" = false := by
  refine ⟨by decide, by decide⟩

/-- Claim C7 (corrected): only the `part_000` variant of
`generateResponse` reports the actual returned count when it is below the
requested 5 — its response opens with the actual count string; the
`main.go` variant always opens with the requested count 5. -/
theorem C7_amended_actual_count (p : Payload) (s : Session) (c : String) (n : Int)
    (hc : p.count = some c) (hn : goParseInt c = some n) (hlt : n < 5)
    (hi : p.items.isSome = true) (hu : p.itemSearchURL.isSome = true) :
    (∃ rest, generateResponseV2 p s (toString 5) =
      some (Session.empty,
        ["There are " ++ c ++ " items matching your criteria : <br>" ++ rest], 1)) ∧
    (∀ (q : Payload) (t : Session), ∃ rest,
      (generateResponse q t (toString 5)).2 =
        ["There are " ++ toString 5 ++ " items matching your criteria : " ++ rest]) := by
  constructor
  · rcases hi2 : p.items with _ | xs
    · rw [hi2] at hi; simp at hi
    · rcases hu2 : p.itemSearchURL with _ | url
      · rw [hu2] at hu; simp at hu
      · obtain ⟨rest, hrest⟩ := successBodyV2_split c xs url
        refine ⟨rest, ?_⟩
        simp [generateResponseV2, hi2, hu2, hc, hn, hlt, hrest]
  · exact fun q t => generateResponse_always_requested_count q t

/-- Witness for C7 (amended) at a concrete 2-item payload. -/
theorem C7_actual_count_witness :
    ∃ rest, generateResponseV2
      ⟨some "Success", none, some "2",
       some [⟨"1", "g1", "u1", "Bag", "New", "10", "USD"⟩,
             ⟨"2", "g2", "u2", "Belt", "Used", "20", "USD"⟩],
       some "http://results.page"⟩ Session.empty (toString 5) =
      some (Session.empty,
        ["There are " ++ "2" ++ " items matching your criteria : <br>" ++ rest], 1) :=
  (C7_amended_actual_count
    ⟨some "Success", none, some "2",
     some [⟨"1", "g1", "u1", "Bag", "New", "10", "USD"⟩,
           ⟨"2", "g2", "u2", "Belt", "Used", "20", "USD"⟩],
     some "http://results.page"⟩ Session.empty "2" 2 rfl rfl (by decide) rfl rfl).1

set_option maxRecDepth 10000 in
/-- Counterexample to claim C8 as stated: in `main.go` the three
formatters are invoked with no return-value check, so an upstream-failure
payload produces three response writes in one dispatch turn (`handleError`
fires, the absent count reads as 0 so `handleCaseZero` fires, and
`generateResponse` always fires), not exactly one. -/
theorem C8_all_formatters_run_counterexample :
    ((dispatchResponses ⟨some "Failure", some "Invalid keyword", none, none, none⟩
        Session.empty).2).length = 3 := by decide

/-- Claim C8 (corrected): in the `part_000` variant, which checks each
formatter's return value, every well-formed payload produces exactly one
response, chosen by the priority order failure, zero results, success
(`expectedTerminalV2`), with the session cleared; in `main.go` all three
formatters run unconditionally, and the number of writes per dispatch
turn is one for `generateResponse` plus one per fired earlier formatter. -/
theorem C8_amended_priority (p : Payload) (s : Session) (h : wfPayloadV2 p = true) :
    dispatchResponsesV2 p s = some (Session.empty, [expectedTerminalV2 p]) ∧
    (∀ (q : Payload) (t : Session),
      ((dispatchResponses q t).2).length =
        (if eqFold (q.ack.getD "") "failure" then 1 else 0) +
        (if goAtoi (q.count.getD "") == 0 then 1 else 0) + 1) := by
  constructor
  · rcases hp : p.ack with _ | a
    · simp [wfPayloadV2, hp] at h
    · by_cases hf : eqFold a "failure"
      · rcases hem : p.errorMessage with _ | em
        · simp [wfPayloadV2, hp, hf, hem] at h
        · simp [dispatchResponsesV2, handleErrorV2, hp, hf, hem, expectedTerminalV2]
      · rcases hc : p.count with _ | c
        · simp [wfPayloadV2, hp, hf, hc] at h
        · rcases hn : goParseInt c with _ | n
          · simp [wfPayloadV2, hp, hf, hc, hn] at h
          · by_cases h0 : n = 0
            · simp [dispatchResponsesV2, handleErrorV2, handleCaseZeroV2, hp, hf, hc, hn, h0,
                expectedTerminalV2, goAtoi]
            · rcases hi : p.items with _ | xs
              · simp [wfPayloadV2, hp, hf, hc, hn, h0, hi] at h
              · rcases hu : p.itemSearchURL with _ | url
                · simp [wfPayloadV2, hp, hf, hc, hn, h0, hi, hu] at h
                · simp [dispatchResponsesV2, handleErrorV2, handleCaseZeroV2, generateResponseV2,
                    hp, hf, hc, hn, h0, hi, hu, expectedTerminalV2, goAtoi]
  · intro q t
    by_cases hf : eqFold (q.ack.getD "") "failure" <;>
    by_cases h0 : goAtoi (q.count.getD "") == 0 <;>
    simp [dispatchResponses, handleError, handleCaseZero, generateResponse, hf, h0]

/-- Witness for C8 (amended) at a concrete failure payload. -/
theorem C8_priority_witness :
    dispatchResponsesV2 ⟨some "Failure", some "Invalid keyword", none, none, none⟩ Session.empty =
      some (Session.empty,
        [expectedTerminalV2 ⟨some "Failure", some "Invalid keyword", none, none, none⟩]) :=
  (C8_amended_priority ⟨some "Failure", some "Invalid keyword", none, none, none⟩
    Session.empty (by decide)).1

/-- Claim C9 (confirmed): with the POST method, a chat request with an
empty Authorization header or an unknown session identifier is rejected
with 401 (and the unknown identifier is not auto-created), and a request
with a malformed JSON body or a body lacking the `message` key is
rejected with 400; in every such case the store is returned unchanged. -/
theorem C9_client_errors (store : Store) (req : ChatRequest) (p : Payload)
    (hm : req.method = "POST") :
    (req.auth = "" → handleChatTurn store req p = (store, ChatResult.httpError 401)) ∧
    (req.auth ≠ "" → lookupStore store req.auth = none →
      handleChatTurn store req p = (store, ChatResult.httpError 401) ∧
      lookupStore (handleChatTurn store req p).1 req.auth = none) ∧
    (req.auth ≠ "" → (∃ s, lookupStore store req.auth = some s) → req.body = none →
      handleChatTurn store req p = (store, ChatResult.httpError 400)) ∧
    (∀ b, req.auth ≠ "" → (∃ s, lookupStore store req.auth = some s) → req.body = some b →
      lookupField b "message" = none →
      handleChatTurn store req p = (store, ChatResult.httpError 400)) := by
  obtain ⟨method, auth, body⟩ := req
  dsimp only at hm
  subst hm
  dsimp only
  refine ⟨?_, ?_, ?_, ?_⟩
  · intro ha
    simp [handleChatTurn, ha]
  · intro ha hl
    refine ⟨?_, ?_⟩ <;> simp [handleChatTurn, ha, hl]
  · rintro ha ⟨s, hs⟩ hb
    subst hb
    simp [handleChatTurn, ha, hs]
  · rintro b ha ⟨s, hs⟩ hb hmsg
    subst hb
    simp [handleChatTurn, ha, hs, hmsg]

/-- Witness for C9: the four client-error cases at concrete requests. -/
theorem C9_client_errors_witness :
    handleChatTurn [] ⟨"POST", "", none⟩ ({} : Payload) = ([], ChatResult.httpError 401) ∧
    handleChatTurn [] ⟨"POST", "u1", none⟩ ({} : Payload) = ([], ChatResult.httpError 401) ∧
    handleChatTurn [("u1", Session.empty)] ⟨"POST", "u1", none⟩ ({} : Payload) =
      ([("u1", Session.empty)], ChatResult.httpError 400) ∧
    handleChatTurn [("u1", Session.empty)] ⟨"POST", "u1", some []⟩ ({} : Payload) =
      ([("u1", Session.empty)], ChatResult.httpError 400) :=
  ⟨(C9_client_errors [] ⟨"POST", "", none⟩ {} rfl).1 rfl,
   ((C9_client_errors [] ⟨"POST", "u1", none⟩ {} rfl).2.1 (by decide) rfl).1,
   (C9_client_errors [("u1", Session.empty)] ⟨"POST", "u1", none⟩ {} rfl).2.2.1
     (by decide) ⟨Session.empty, rfl⟩ rfl,
   (C9_client_errors [("u1", Session.empty)] ⟨"POST", "u1", some []⟩ {} rfl).2.2.2
     [] (by decide) ⟨Session.empty, rfl⟩ rfl rfl⟩

/-- Claim C10 (confirmed): the chat handler checks only the presence of
the `message` key, not its type — the `.(string)` assertion succeeds
exactly on string values, and a well-formed body whose `message` value is
a number drives the handler into the panic branch. -/
theorem C10_message_type_unchecked :
    (∀ v : JValue, (∃ s, assertString v = some s) ↔ (∃ s, v = JValue.str s)) ∧
    handleChatTurn [("u1", Session.empty)]
      ⟨"POST", "u1", some [("message", JValue.num 3)]⟩ ({} : Payload) =
      ([("u1", Session.empty)], ChatResult.panicked) := by
  constructor
  · intro v
    cases v <;> simp [assertString]
  · rfl
